import Mathlib

/-!
A shallow embedding of `datastore-writer` (src/src/DatastoreWriter.ts and
src/src/BulkLoader.ts).

Modelling choices, all taken from the source:

* JavaScript is single threaded; `async flush()` runs synchronously up to
  `await this.#datastore.insert/upsert(foo)` and its continuation runs when the
  sink promise settles.  We therefore split `flush` into `flushStart` (the
  synchronous prefix, up to and including handing the batch to the sink) and
  `flushComplete` (the continuation, parameterised by whether the sink promise
  fulfilled or rejected).  If the sink rejects, the `await` throws and the
  continuation does not run — exactly as in the source, which has no
  try/finally.
* Machine numbers: the JS `number` counters and `bigint` timestamps are
  modelled as `Int` (they stay far below 2^53 here and no overflow-relevant
  arithmetic occurs); `buffer_size` is held as `Nat` after the constructor has
  validated it to be positive, matching the `%` arithmetic on non-negative
  values.
* Events (`busy`, `idle`, `stats`, `error`) are returned as an explicit list of
  emitted events per step.  The `stats` payload is modelled as the association
  list of the fields of the object literal in `#endTimer`, so that presence or
  absence of a field is a provable fact.
* `ready()` promises are modelled by identifiers: a call while not busy puts
  its identifier into `resolvedReady` (resolved immediately); a call while busy
  registers it in `idleWaiters` (`once('idle', resolve)`), and the `idle`
  emission inside `#changeStateToIdle` moves all registered waiters to
  `resolvedReady`.
* `ccErrors` is a ghost counter of thrown concurrency-exceeded errors; it is
  written only where the source throws that error and is read by no operation.
-/

/-- The errors the source can throw or reject with. -/
inductive JsError where
  | nullEntity
  | concurrencyExceeded
  | assertionFailed
  | sinkError
  deriving DecidableEq

/-- Events emitted by the writer (`busy`, `idle`, `stats`, `error`).  The stats
payload is the association list of fields of the object literal emitted by
`#endTimer`. -/
inductive WEvent where
  | busy
  | idle
  | stats (payload : List (String × Int))
  | error (e : JsError)
  deriving DecidableEq

/-- The options object accepted by the `DatastoreWriter` constructor; each
field may be absent (JS `undefined`). -/
structure WOptions where
  buffer_size : Option Int
  max_concurrent_requests : Option Int
  upsert : Option Bool
  deriving DecidableEq

/-- JS falsiness of a possibly absent numeric option: `undefined`, `null` and
`0` are falsy. -/
def jsFalsy : Option Int → Bool
  | none => true
  | some n => n == 0

/-- lodash `_.isEmpty(options)`: true when the object has no own keys (or is
`undefined`, handled at the call site). -/
def optionsIsEmpty (o : WOptions) : Bool :=
  o.buffer_size.isNone && o.max_concurrent_requests.isNone && o.upsert.isNone

/-- The mutable fields of a `DatastoreWriter` instance. -/
structure WriterState where
  entities : List Nat
  isBusy : Bool
  bufferSize : Nat
  bufferCount : Nat
  maxConcurrentRequests : Int
  concurrentRequests : Int
  elapsed : Int
  requestCount : Nat
  upsert : Bool
  isTicking : Bool
  t0 : Int
  t1 : Int
  deriving DecidableEq

/-- The writer state produced by a successful construction with validated
parameters. -/
def initWriter (bs : Nat) (mc : Int) (u : Bool) : WriterState :=
  { entities := []
    isBusy := false
    bufferSize := bs
    bufferCount := 0
    maxConcurrentRequests := mc
    concurrentRequests := 0
    elapsed := 0
    requestCount := 0
    upsert := u
    isTicking := false
    t0 := 0
    t1 := 0 }

/-- The `DatastoreWriter` constructor.  `hasDatastore` is the truthiness of the
`datastore` argument.  Follows the source line by line: lodash empty check,
falsy-defaulting of `buffer_size` and `max_concurrent_requests`, the null
checks, and the final `<= 0` validations. -/
def mkWriter (hasDatastore : Bool) (options : Option WOptions) :
    Except String WriterState :=
  let o0 : WOptions := options.getD ⟨none, none, none⟩
  let o1 : WOptions :=
    if options.isNone || optionsIsEmpty o0 then ⟨some 500, some 10, some false⟩ else o0
  let o2 : WOptions :=
    if jsFalsy o1.buffer_size then { o1 with buffer_size := some 500 } else o1
  let o3 : WOptions :=
    if jsFalsy o2.max_concurrent_requests then
      { o2 with max_concurrent_requests := some 10 } else o2
  if !hasDatastore then .error "datastore is null or empty"
  else if jsFalsy o3.buffer_size then .error "bufferSize is null or empty"
  else if jsFalsy o3.max_concurrent_requests then
    .error "maxConcurrentRequests is null or empty"
  else
    let bs : Int := o3.buffer_size.getD 0
    let mc : Int := o3.max_concurrent_requests.getD 0
    if bs ≤ 0 then .error "bufferSize cannot be less than or equal to 0"
    else if mc ≤ 0 then .error "maxConcurrentRequests should be at least 1"
    else .ok (initWriter bs.toNat mc (o3.upsert.getD false))

/-- An in-flight sink request: the batch handed to `datastore.insert/upsert`,
its request number, and whether the flush was the automatic one initiated
inside `add` (whose rejection is routed to the `error` event by the `.catch`
in `add`). -/
structure Pending where
  reqNo : Nat
  batch : List Nat
  auto : Bool
  deriving DecidableEq

/-- The whole system: the writer instance plus the in-flight sink calls, the
log of batches handed to the sink (tagged with whether the flush was
automatic), the `ready()` bookkeeping and the ghost concurrency-error
counter. -/
structure Sys where
  ws : WriterState
  pendings : List Pending
  sinkCalls : List (Bool × List Nat)
  idleWaiters : List Nat
  resolvedReady : List Nat
  ccErrors : Nat
  deriving DecidableEq

/-- A freshly constructed system around a writer state. -/
def initSys (w : WriterState) : Sys :=
  { ws := w, pendings := [], sinkCalls := [], idleWaiters := [],
    resolvedReady := [], ccErrors := 0 }

/-- `#changeStateToBusy`. -/
def changeStateToBusy (w : WriterState) : WriterState × List WEvent :=
  if !w.isBusy && w.concurrentRequests == w.maxConcurrentRequests then
    ({ w with isBusy := true }, [.busy])
  else (w, [])

/-- `#changeStateToIdle`; the `idle` emission fires every `once('idle')`
listener registered by `ready()`, so it moves all registered waiters to the
resolved list. -/
def changeStateToIdle (w : WriterState) (waiters resolved : List Nat) :
    WriterState × List Nat × List Nat × List WEvent :=
  if w.isBusy && decide (w.concurrentRequests < w.maxConcurrentRequests) then
    ({ w with isBusy := false }, [], resolved ++ waiters, [.idle])
  else (w, waiters, resolved, [])

/-- Settlement of a flush promise: fulfilled, or rejected with an error. -/
inductive FlushDone where
  | resolved
  | failed (e : JsError)
  deriving DecidableEq

/-- Outcome of the synchronous prefix of `flush()`: the empty-buffer no-op, a
sink call now in flight, or a synchronously thrown error (which rejects the
returned promise). -/
inductive FlushResult where
  | noop
  | inflight (reqNo : Nat)
  | thrown (e : JsError)
  deriving DecidableEq

/-- The synchronous prefix of `async flush()`, up to the `await` on the sink
call: take and clear the buffer, and if it was non-empty increment the
concurrency count, check it against the maximum (throwing
`concurrencyExceeded` past it), increment `requestCount`, run
`#changeStateToBusy`, run `#startTimer` (whose `assert.ok(!this.#isTicking)`
throws if a timer is already ticking), and hand the batch to the sink.  When
`auto` is true the flush came from `add`, whose `.catch` turns a rejection
into an `error` event. -/
def flushStart (s : Sys) (now : Int) (auto : Bool) :
    Sys × List WEvent × FlushResult :=
  let foo := s.ws.entities
  let s : Sys := { s with ws := { s.ws with entities := [] } }
  if 0 < foo.length then
    let w1 : WriterState := { s.ws with concurrentRequests := s.ws.concurrentRequests + 1 }
    if w1.maxConcurrentRequests < w1.concurrentRequests then
      ({ s with ws := w1, ccErrors := s.ccErrors + 1 },
       if auto then [.error .concurrencyExceeded] else [],
       .thrown .concurrencyExceeded)
    else
      let w2 : WriterState := { w1 with requestCount := w1.requestCount + 1 }
      let bz := changeStateToBusy w2
      if bz.1.isTicking then
        ({ s with ws := bz.1 },
         bz.2 ++ (if auto then [.error .assertionFailed] else []),
         .thrown .assertionFailed)
      else
        let w4 : WriterState := { bz.1 with isTicking := true, t0 := now }
        ({ s with ws := w4,
                  sinkCalls := s.sinkCalls ++ [(auto, foo)],
                  pendings := s.pendings ++ [⟨w4.requestCount, foo, auto⟩] },
         bz.2, .inflight w4.requestCount)
  else (s, [], .noop)

/-- The continuation of `flush()` after the sink promise for the pending
request at position `idx` settles.  On fulfilment (`ok = true`) the source
decrements the concurrency count, runs `#endTimer` (assert, stop the clock,
accumulate `elapsed`, emit the stats payload) and `#changeStateToIdle`; on
rejection the `await` throws, none of that runs, and the flush promise rejects
with the sink error (routed to the `error` event when the flush was the
automatic one). -/
def flushComplete (s : Sys) (idx : Nat) (ok : Bool) (now : Int) :
    Sys × List WEvent × Option FlushDone :=
  match s.pendings[idx]? with
  | none => (s, [], none)
  | some p =>
    let s1 : Sys := { s with pendings := s.pendings.eraseIdx idx }
    if ok then
      let w1 : WriterState := { s1.ws with concurrentRequests := s1.ws.concurrentRequests - 1 }
      if w1.isTicking then
        let nano := now - w1.t0
        let w2 : WriterState :=
          { w1 with isTicking := false, t1 := now, elapsed := w1.elapsed + nano }
        let payload : List (String × Int) :=
          [("start", w2.t0), ("end", now),
           ("request_count", (w2.requestCount : Int)), ("elapsed", nano)]
        let iz := changeStateToIdle w2 s1.idleWaiters s1.resolvedReady
        ({ s1 with ws := iz.1, idleWaiters := iz.2.1,
                   resolvedReady := iz.2.2.1 },
         .stats payload :: iz.2.2.2, some .resolved)
      else
        ({ s1 with ws := w1 },
         if p.auto then [.error .assertionFailed] else [],
         some (.failed .assertionFailed))
    else
      (s1,
       if p.auto then [.error .sinkError] else [],
       some (.failed .sinkError))

/-- `ready()`: when not busy the returned promise resolves immediately;
when busy the resolver is registered with `once('idle', ...)`. -/
def readyCall (s : Sys) (id : Nat) : Sys :=
  if s.ws.isBusy then { s with idleWaiters := s.idleWaiters ++ [id] }
  else { s with resolvedReady := s.resolvedReady ++ [id] }

/-- `add(entity)`: reject a falsy entity, append to the buffer, increment the
cumulative append counter, and when that counter is an exact multiple of the
buffer size initiate an automatic flush (not awaited; its rejection is routed
to the `error` event, which `flushStart`/`flushComplete` perform for
`auto = true`). -/
def addOp (s : Sys) (r : Nat) (now : Int) :
    Sys × List WEvent × Option JsError :=
  if r = 0 then (s, [], some .nullEntity)
  else
    let w1 : WriterState :=
      { s.ws with entities := s.ws.entities ++ [r],
                  bufferCount := s.ws.bufferCount + 1 }
    let s1 : Sys := { s with ws := w1 }
    if w1.bufferCount % w1.bufferSize = 0 then
      let fz := flushStart s1 now true
      (fz.1, fz.2.1, none)
    else (s1, [], none)

/-- The operation alphabet of the writer: an `add` call, an explicit `flush`
call, the settlement of an in-flight sink request (fulfilled or rejected), and
a `ready()` call identified by a fresh id. -/
inductive Op where
  | add (r : Nat) (now : Int)
  | flush (now : Int)
  | complete (idx : Nat) (ok : Bool) (now : Int)
  | ready (id : Nat)
  deriving DecidableEq

/-- One step of the system under an operation, returning the events emitted
during that step. -/
def stepOp (s : Sys) : Op → Sys × List WEvent
  | .add r now => let az := addOp s r now; (az.1, az.2.1)
  | .flush now => let fz := flushStart s now false; (fz.1, fz.2.1)
  | .complete idx ok now => let cz := flushComplete s idx ok now; (cz.1, cz.2.1)
  | .ready id => (readyCall s id, [])

/-- Run a sequence of operations. -/
def runOps (s : Sys) : List Op → Sys
  | [] => s
  | op :: ops => runOps (stepOp s op).1 ops

/-!
The `BulkLoader` model (src/src/BulkLoader.ts).

The loader couples a line-by-line source to the writer.  We model the
scheduling discipline under which the loader's completion claims are stated:
the single JS thread delivers one `line` event at a time, and every in-flight
sink request completes successfully before the next source event arrives (a
fast, non-failing sink).  `drainPendings` performs those completions.  The
loader observes the writer's `stats` events (its stats listener increments the
loader's own request counter) and its `error` events (`#handleErrorEvent`
rejects the load promise); a promise settles only once, so `settle` keeps the
first outcome.
-/

/-- JS `number` results of the average-latency computation in `#complete`:
`NaN`, the infinities, or a finite value (double-precision rounding is
abstracted to exact rationals; the claims evaluate it only at exactly
representable points). -/
inductive JsNum where
  | nan
  | posInf
  | negInf
  | val (q : ℚ)
  deriving DecidableEq

/-- JS floating-point division on finite operands: division by zero yields
`NaN` (for a zero numerator) or a signed infinity, and never throws. -/
def jsDivVal (a b : ℚ) : JsNum :=
  if b = 0 then
    if a = 0 then .nan else if 0 < a then .posInf else .negInf
  else .val (a / b)

/-- The computation in `BulkLoader.#complete`:
`Number(this.#writer.elapsed) * 1e-9 / this.#writer.requestCount`, performed
unconditionally (no guard on `requestCount`). -/
def avgRequestSeconds (elapsed : Int) (requestCount : Nat) : JsNum :=
  jsDivVal ((elapsed : ℚ) * (1 / 10 ^ 9)) ((requestCount : ℚ))

/-- Settlement of the promise returned by `BulkLoader.load()`. -/
inductive LoadOutcome where
  | resolvedOk
  | rejected (e : JsError)
  deriving DecidableEq

/-- The mutable fields of a `BulkLoader` during one `load()` invocation:
the writer system, `#count`, `#nLines`, whether `#lr.close()` has been called,
the loader's own `#requestCount` (incremented by its stats listener), and the
load promise's settlement. -/
structure Loader where
  sys : Sys
  count : Nat
  nLines : Option Int
  closed : Bool
  reqCountL : Nat
  outcome : Option LoadOutcome
  deriving DecidableEq

/-- A promise settles only once: keep the first outcome. -/
def settle (L : Loader) (o : LoadOutcome) : Loader :=
  match L.outcome with
  | some _ => L
  | none => { L with outcome := some o }

/-- React to the events emitted by a writer step: the stats listener installed
in `#addStatsEvent` increments the loader's request counter, and the `error`
listener routes the error to `#handleErrorEvent`, which rejects the load
promise. -/
def absorbEvents (L : Loader) : List WEvent → Loader
  | [] => L
  | e :: rest =>
    match e with
    | .stats _ => absorbEvents { L with reqCountL := L.reqCountL + 1 } rest
    | .error err => absorbEvents (settle L (.rejected err)) rest
    | _ => absorbEvents L rest

/-- Complete the in-flight sink requests successfully, oldest first (the
fast-sink schedule); the fuel is the number of pending requests. -/
def drainAux : Nat → Sys → Sys × List WEvent
  | 0, s => (s, [])
  | n + 1, s =>
    match s.pendings with
    | [] => (s, [])
    | _ :: _ =>
      let cz := flushComplete s 0 true 0
      let dz := drainAux n cz.1
      (dz.1, cz.2.1 ++ dz.2)

/-- Complete every in-flight sink request successfully. -/
def drainPendings (s : Sys) : Sys × List WEvent :=
  drainAux s.pendings.length s

/-- Run the writer's in-flight completions and absorb their events. -/
def loaderDrain (L : Loader) : Loader :=
  let dz := drainPendings L.sys
  absorbEvents { L with sys := dz.1 } dz.2

/-- Call `writer.add(entity)` from the loader, absorbing emitted events; a
throw from `add` is caught by `#handleLineEvent` and routed to
`#handleErrorEvent`, rejecting the load promise. -/
def loaderAdd (L : Loader) (entity : Nat) : Loader :=
  let az := addOp L.sys entity 0
  let L1 := absorbEvents { L with sys := az.1 } az.2.1
  match az.2.2 with
  | some e => settle L1 (.rejected e)
  | none => L1

/-- `#handleLineEvent` under the fast-sink schedule.  A closed reader delivers
no further lines.  When the configured line limit is reached the reader is
closed (`#lr.close()`, ending the source early); otherwise the count is
incremented, the line converted, and the entity added — via the pause /
`ready()` / add / resume path when the writer is busy (under the fast-sink
schedule the wait is the completion of the in-flight requests).  Afterwards
the in-flight requests complete before the next source event. -/
def handleLine (conv : Nat → Nat) (L : Loader) (line : Nat) : Loader :=
  if L.closed then L
  else if (match L.nLines with
           | some n => decide (0 < n) && ((L.count : Int) == n)
           | none => false) then
    { L with closed := true }
  else
    let L1 : Loader := { L with count := L.count + 1 }
    let entity := conv line
    let L2 :=
      if L1.sys.ws.isBusy then loaderAdd (loaderDrain L1) entity
      else loaderAdd L1 entity
    loaderDrain L2

/-- Deliver a list of source lines to the loader. -/
def runLines (conv : Nat → Nat) (L : Loader) (lines : List Nat) : Loader :=
  lines.foldl (handleLine conv) L

/-- `#complete`: compute the average request time (an unguarded division by
`requestCount`) and resolve the load promise. -/
def loaderComplete (L : Loader) : Loader × JsNum :=
  let avg := avgRequestSeconds L.sys.ws.elapsed L.sys.ws.requestCount
  (settle L .resolvedOk, avg)

/-- `#handleEndEvent`: `writer.flush().then(() => this.#complete()).catch(err
=> this.#handleErrorEvent(err))`, under the fast-sink schedule.  Returns the
final loader and the average computed by `#complete` when it ran. -/
def handleEnd (L : Loader) : Loader × Option JsNum :=
  let fz := flushStart L.sys 0 false
  let L1 := absorbEvents { L with sys := fz.1 } fz.2.1
  match fz.2.2 with
  | .noop => let cz := loaderComplete L1; (cz.1, some cz.2)
  | .thrown e => (settle L1 (.rejected e), none)
  | .inflight _ =>
    let L2 := loaderDrain L1
    let cz := loaderComplete L2
    (cz.1, some cz.2)

/-- The loader state at the start of `load()`, for a writer constructed with
the given validated configuration. -/
def initLoader (nLines : Option Int) (bs : Nat) (mc : Int) (u : Bool) : Loader :=
  { sys := initSys (initWriter bs mc u), count := 0, nLines := nLines,
    closed := false, reqCountL := 0, outcome := none }

/-- One full `load()` under the fast-sink schedule: deliver all lines, then the
`end` event. -/
def runLoader (conv : Nat → Nat) (nLines : Option Int) (bs : Nat) (mc : Int)
    (u : Bool) (lines : List Nat) : Loader × Option JsNum :=
  handleEnd (runLines conv (initLoader nLines bs mc u) lines)

/-!
Invariants used by the trace theorems.
-/

/-- Inductive invariant for the concurrency count: at least one unit of the
count per in-flight request, and the count can exceed the maximum only by the
number of concurrency-exceeded errors the writer has thrown. -/
def ConcInv (mc : Int) (s : Sys) : Prop :=
  (s.pendings.length : Int) ≤ s.ws.concurrentRequests ∧
  s.ws.concurrentRequests ≤ mc + s.ccErrors ∧
  s.ws.maxConcurrentRequests = mc

/-- Inductive invariant for batching on traces with no explicit flush: the
buffer length tracks the cumulative append counter modulo the buffer size,
stays below the buffer size, and every batch handed to the sink by an
automatic flush has exactly the buffer size. -/
def BatchInv (bs : Nat) (s : Sys) : Prop :=
  s.ws.bufferSize = bs ∧
  s.ws.entities.length % bs = s.ws.bufferCount % bs ∧
  s.ws.entities.length < bs ∧
  ∀ c ∈ s.sinkCalls, c.1 = true → c.2.length = bs

/-- Operation sequences containing no explicit `flush()` call. -/
def noExplicitFlush (ops : List Op) : Prop :=
  ∀ now : Int, Op.flush now ∉ ops

/-- A concrete system used by witnesses: a writer with buffer size 10 and
concurrency limit 1, after one `add` and one explicit `flush`, whose single
sink request is in flight (so the writer is busy). -/
def busySample : Sys :=
  runOps (initSys (initWriter 10 1 false)) [.add 1 0, .flush 0]

/-- A concrete idle system used by witnesses. -/
def idleSample : Sys := initSys (initWriter 5 2 true)

/-!
Claim theorems.
-/

/-- C5 (code bug evaluation): the constructor does NOT reject a `buffer_size`
of 0.  The falsy check `if (!options.buffer_size)` treats 0 as absent and
silently replaces it with the default 500, so construction succeeds; the
constructor's own later `<= 0` check (whose message says a non-positive size
"cannot" be allowed) is unreachable for 0.  A strictly negative size, and a
missing datastore, do throw as the claim says.  A `max_concurrent_requests` of
0 is likewise silently defaulted to 10. -/
theorem mkWriter_accepts_zero_buffer_size :
    mkWriter true (some ⟨some 0, some 10, some false⟩) = .ok (initWriter 500 10 false) ∧
    mkWriter true (some ⟨some 500, some 0, some false⟩) = .ok (initWriter 500 10 false) ∧
    mkWriter true (some ⟨some (-3), some 10, some false⟩) =
      .error "bufferSize cannot be less than or equal to 0" ∧
    mkWriter true (some ⟨some 500, some (-1), some false⟩) =
      .error "maxConcurrentRequests should be at least 1" ∧
    mkWriter false (some ⟨some 5, some 5, some false⟩) =
      .error "datastore is null or empty" := by
  refine ⟨rfl, rfl, rfl, rfl, rfl⟩

/-- C1 (code bug evaluation): a non-empty flush whose sink call fails.  With a
writer of buffer size 10 and limit 5, after one `add` and one explicit
`flush`, the sink promise rejects: the continuation after the `await` is
skipped, so the concurrency count stays at 1 (the `release` decrement never
happens), no stats event is emitted, the timer is left ticking, and the flush
promise rejects with the sink error. -/
theorem flush_sink_failure_skips_release_and_stats :
    (flushComplete (runOps (initSys (initWriter 10 5 false)) [.add 1 0, .flush 0])
        0 false 7).1.ws.concurrentRequests = 1 ∧
    (flushComplete (runOps (initSys (initWriter 10 5 false)) [.add 1 0, .flush 0])
        0 false 7).2.1 = [] ∧
    (flushComplete (runOps (initSys (initWriter 10 5 false)) [.add 1 0, .flush 0])
        0 false 7).1.ws.isTicking = true ∧
    (flushComplete (runOps (initSys (initWriter 10 5 false)) [.add 1 0, .flush 0])
        0 false 7).2.2 = some (FlushDone.failed JsError.sinkError) := by
  refine ⟨by decide, by decide, by decide, by decide⟩

/-- C2 (counterexample): with `max_concurrent_requests = 1`, two explicit
flushes of non-empty buffers with no sink completion in between drive the
active concurrent-request count to 2, strictly above the maximum — the second
flush increments the count before checking it and the thrown error does not
undo the increment.  So the invariant `active_count <= max_concurrent_requests`
does not hold at every point of every operation sequence. -/
theorem concurrent_count_exceeds_max_on_ungated_flush :
    (runOps (initSys (initWriter 10 1 false))
        [.add 1 0, .flush 0, .add 2 0, .flush 0]).ws.concurrentRequests = 2 ∧
    (runOps (initSys (initWriter 10 1 false))
        [.add 1 0, .flush 0, .add 2 0, .flush 0]).ws.maxConcurrentRequests = 1 := by
  refine ⟨by decide, by decide⟩

/-- C3 (counterexample): with `buffer_size = 2`, the sequence add, explicit
flush, sink completion, add makes the cumulative append counter hit an exact
multiple of the buffer size while the buffer holds a single record — the
counter is never reset, so the automatic flush triggered by the second `add`
submits a batch of size 1, not `buffer_size`.  The sink log shows the explicit
call `(false, [1])` followed by the automatic call `(true, [2])`. -/
theorem auto_flush_submits_partial_batch :
    (runOps (initSys (initWriter 2 5 false))
        [.add 1 0, .flush 0, .complete 0 true 1, .add 2 0]).sinkCalls
      = [(false, [1]), (true, [2])] ∧
    (runOps (initSys (initWriter 2 5 false))
        [.add 1 0, .flush 0, .complete 0 true 1, .add 2 0]).ws.bufferSize = 2 := by
  refine ⟨by decide, by decide⟩

/-- C6 (confirmed): calling `flush()` with an empty buffer is a no-op — the
returned system is exactly the input system (no sink call appended, no pending
request, no counter or busy-flag change, no waiter movement), no event is
emitted, and the flush promise resolves as the empty no-op. -/
theorem flush_empty_buffer_noop (s : Sys) (now : Int) (auto : Bool)
    (h : s.ws.entities = []) :
    flushStart s now auto = (s, [], FlushResult.noop) := by
  obtain ⟨ws, p, sc, iw, rr, cc⟩ := s
  obtain ⟨ent, b1, bs, bc, mc, cr, el, rc, up, tk, ta, tb⟩ := ws
  simp only at h
  subst h
  simp [flushStart]

/-- Witness for C6 at a concrete idle system. -/
theorem flush_empty_buffer_noop_witness :
    flushStart idleSample 9 false = (idleSample, [], FlushResult.noop) :=
  flush_empty_buffer_noop idleSample 9 false rfl

/-- C9 (confirmed): `flush()` takes and clears the buffer before the
concurrency check and the sink call, and a failed non-empty flush permanently
discards its batch at this layer.  Conjuncts: (1) after any `flushStart` the
buffer is empty — the batch is never restored; (2) a flush hands the sink
either nothing or exactly the snapshot of the buffer taken at flush start, so
discarded records are never resubmitted by the writer; (3) when the
concurrency check fails, the flush promise rejects with the
concurrency-exceeded error and no sink call at all is made for the batch;
(4) when the sink call itself fails, the continuation is skipped: the writer
state (including the buffer, which does not get the batch back) is untouched,
no further sink call is made, and the flush promise rejects with the sink
error. -/
theorem failed_flush_discards_batch :
    (∀ (s : Sys) (now : Int) (auto : Bool),
      (flushStart s now auto).1.ws.entities = []) ∧
    (∀ (s : Sys) (now : Int) (auto : Bool),
      (flushStart s now auto).1.sinkCalls = s.sinkCalls ∨
      (flushStart s now auto).1.sinkCalls = s.sinkCalls ++ [(auto, s.ws.entities)]) ∧
    (∀ (s : Sys) (now : Int) (auto : Bool),
      s.ws.entities ≠ [] →
      s.ws.maxConcurrentRequests < s.ws.concurrentRequests + 1 →
      (flushStart s now auto).2.2 = FlushResult.thrown JsError.concurrencyExceeded ∧
      (flushStart s now auto).1.sinkCalls = s.sinkCalls) ∧
    (∀ (s : Sys) (idx : Nat) (now : Int),
      s.pendings[idx]? ≠ none →
      (flushComplete s idx false now).1.ws = s.ws ∧
      (flushComplete s idx false now).1.sinkCalls = s.sinkCalls ∧
      (flushComplete s idx false now).2.2 = some (FlushDone.failed JsError.sinkError)) := by
  refine ⟨?_, ?_, ?_, ?_⟩
  · intro s now auto
    unfold flushStart changeStateToBusy
    dsimp only
    repeat' split
    all_goals rfl
  · intro s now auto
    unfold flushStart changeStateToBusy
    dsimp only
    repeat' split
    all_goals simp
  · intro s now auto h1 h2
    have hl : 0 < s.ws.entities.length := List.length_pos.mpr h1
    unfold flushStart
    dsimp only
    repeat' split
    all_goals exact ⟨rfl, rfl⟩
  · intro s idx now h
    unfold flushComplete
    match hp : s.pendings[idx]? with
    | none => exact absurd hp h
    | some p => simp [hp]

/-- Witness for C9: the sink-failure part at the concrete in-flight system
`busySample`, and the concurrency-failure part at that system after one more
`add` (buffer `[3]`, count already at the maximum 1). -/
theorem failed_flush_discards_batch_witness :
    ((flushComplete busySample 0 false 7).1.ws = busySample.ws ∧
     (flushComplete busySample 0 false 7).1.sinkCalls = busySample.sinkCalls ∧
     (flushComplete busySample 0 false 7).2.2 =
       some (FlushDone.failed JsError.sinkError)) ∧
    ((flushStart (stepOp busySample (.add 3 0)).1 0 false).2.2 =
       FlushResult.thrown JsError.concurrencyExceeded ∧
     (flushStart (stepOp busySample (.add 3 0)).1 0 false).1.sinkCalls =
       (stepOp busySample (.add 3 0)).1.sinkCalls) :=
  ⟨failed_flush_discards_batch.2.2.2 busySample 0 7 (by decide),
   failed_flush_discards_batch.2.2.1 (stepOp busySample (.add 3 0)).1 0 false
     (by decide) (by decide)⟩

/-- C4 (counterexample): the stats notification emitted for a completed
non-empty flush.  With a writer of buffer size 10 and limit 10, after `add`
and `flush` at time 2 and a successful sink completion at time 5, the step
emits exactly one stats event whose payload is
`start = 2, end = 5, request_count = 1, elapsed = 3` — and looking up the
field `cumulative_elapsed` in that payload yields nothing: the payload does
not contain the cumulative sum the claim requires (the source accumulates it
only in the writer's `elapsed` property). -/
theorem stats_payload_lacks_cumulative_field :
    (flushComplete (runOps (initSys (initWriter 10 10 false)) [.add 1 0, .flush 2])
        0 true 5).2.1
      = [WEvent.stats [("start", 2), ("end", 5), ("request_count", 1), ("elapsed", 3)]] ∧
    List.lookup "cumulative_elapsed"
      [(("start" : String), (2 : Int)), ("end", 5), ("request_count", 1), ("elapsed", 3)]
      = none := by
  refine ⟨by decide, by decide⟩

/-- C4 (amended, proved): every completed non-empty flush emits exactly one
stats notification, whose payload holds the fields `start`, `end`,
`request_count` and `elapsed`, with `elapsed` equal to that flush's own
duration `end - start`; the running sum of all flush durations is accumulated
in the writer's `elapsed` property but is NOT a field of the payload (there is
no `cumulative_elapsed` key).  The events of the completion step are the
single stats event, optionally followed by the `idle` edge event. -/
theorem completed_flush_stats_payload (s : Sys) (idx : Nat) (now : Int)
    (hp : s.pendings[idx]? ≠ none) (ht : s.ws.isTicking = true) :
    (flushComplete s idx true now).2.2 = some FlushDone.resolved ∧
    ((flushComplete s idx true now).2.1 =
        [WEvent.stats [("start", s.ws.t0), ("end", now),
          ("request_count", (s.ws.requestCount : Int)), ("elapsed", now - s.ws.t0)]] ∨
     (flushComplete s idx true now).2.1 =
        [WEvent.stats [("start", s.ws.t0), ("end", now),
          ("request_count", (s.ws.requestCount : Int)), ("elapsed", now - s.ws.t0)],
         WEvent.idle]) ∧
    (flushComplete s idx true now).1.ws.elapsed = s.ws.elapsed + (now - s.ws.t0) ∧
    (flushComplete s idx true now).1.ws.requestCount = s.ws.requestCount ∧
    List.lookup "cumulative_elapsed"
      [(("start" : String), s.ws.t0), ("end", now),
       ("request_count", (s.ws.requestCount : Int)), ("elapsed", now - s.ws.t0)] = none ∧
    List.lookup "elapsed"
      [(("start" : String), s.ws.t0), ("end", now),
       ("request_count", (s.ws.requestCount : Int)), ("elapsed", now - s.ws.t0)]
      = some (now - s.ws.t0) := by
  unfold flushComplete changeStateToIdle
  match hq : s.pendings[idx]? with
  | none => exact absurd hq hp
  | some p =>
    dsimp only
    simp only [hq, ht]
    repeat' split
    all_goals simp_all [List.lookup]

/-- Witness for C4's amended theorem at the concrete in-flight system
`busySample`, completed successfully at time 5. -/
theorem completed_flush_stats_payload_witness :
    (flushComplete busySample 0 true 5).2.2 = some FlushDone.resolved ∧
    (flushComplete busySample 0 true 5).1.ws.elapsed = busySample.ws.elapsed + (5 - busySample.ws.t0) :=
  ⟨(completed_flush_stats_payload busySample 0 5 (by decide) (by decide)).1,
   (completed_flush_stats_payload busySample 0 5 (by decide) (by decide)).2.2.1⟩

/-- `flushStart` preserves the concurrency invariant. -/
theorem concInv_flushStart (mc : Int) (s : Sys) (now : Int) (auto : Bool)
    (h : ConcInv mc s) : ConcInv mc (flushStart s now auto).1 := by
  obtain ⟨h1, h2, h3⟩ := h
  unfold flushStart changeStateToBusy
  dsimp only
  repeat' split
  all_goals refine ⟨?_, ?_, ?_⟩
  all_goals simp_all [List.length_append]
  all_goals omega

/-- `flushComplete` preserves the concurrency invariant. -/
theorem concInv_flushComplete (mc : Int) (s : Sys) (idx : Nat) (ok : Bool) (now : Int)
    (h : ConcInv mc s) : ConcInv mc (flushComplete s idx ok now).1 := by
  obtain ⟨h1, h2, h3⟩ := h
  unfold flushComplete changeStateToIdle
  match hq : s.pendings[idx]? with
  | none => exact ⟨h1, h2, h3⟩
  | some p =>
    have hlt : idx < s.pendings.length := (List.getElem?_eq_some.mp hq).1
    have hlen : (s.pendings.eraseIdx idx).length + 1 = s.pendings.length :=
      List.length_eraseIdx_add_one hlt
    dsimp only
    try simp only [hq]
    repeat' split
    all_goals refine ⟨?_, ?_, ?_⟩
    all_goals try simp_all
    all_goals omega

/-- `add` preserves the concurrency invariant. -/
theorem concInv_addOp (mc : Int) (s : Sys) (r : Nat) (now : Int)
    (h : ConcInv mc s) : ConcInv mc (addOp s r now).1 := by
  unfold addOp
  dsimp only
  split
  · exact h
  · split
    · exact concInv_flushStart mc _ now true ⟨h.1, h.2.1, h.2.2⟩
    · exact ⟨h.1, h.2.1, h.2.2⟩

/-- `ready()` preserves the concurrency invariant. -/
theorem concInv_readyCall (mc : Int) (s : Sys) (id : Nat)
    (h : ConcInv mc s) : ConcInv mc (readyCall s id) := by
  unfold readyCall
  split
  · exact ⟨h.1, h.2.1, h.2.2⟩
  · exact ⟨h.1, h.2.1, h.2.2⟩

/-- Every operation preserves the concurrency invariant. -/
theorem concInv_stepOp (mc : Int) (s : Sys) (op : Op)
    (h : ConcInv mc s) : ConcInv mc (stepOp s op).1 := by
  cases op with
  | add r now => exact concInv_addOp mc s r now h
  | flush now => exact concInv_flushStart mc s now false h
  | complete idx ok now => exact concInv_flushComplete mc s idx ok now h
  | ready id => exact concInv_readyCall mc s id h

/-- Operation sequences preserve the concurrency invariant. -/
theorem concInv_runOps (mc : Int) (s : Sys) (ops : List Op)
    (h : ConcInv mc s) : ConcInv mc (runOps s ops) := by
  induction ops generalizing s with
  | nil => exact h
  | cons op rest ih => exact ih _ (concInv_stepOp mc s op h)

/-- C2 (amended, proved): after every sequence of writer operations (adds,
explicit flushes, sink fulfilments and sink rejections) from a freshly
constructed writer, the active concurrent-request count is never negative, and
it is bounded by `max_concurrent_requests` at every point at which the writer
has not yet thrown a concurrency-exceeded error.  (The unamended upper bound
fails: a flush initiated at saturation increments the count past the maximum
and throws without undoing the increment — see the counterexample.) -/
theorem concurrency_count_bounds (bs : Nat) (mc : Int) (u : Bool)
    (ops : List Op) (hmc : 0 ≤ mc) :
    0 ≤ (runOps (initSys (initWriter bs mc u)) ops).ws.concurrentRequests ∧
    ((runOps (initSys (initWriter bs mc u)) ops).ccErrors = 0 →
      (runOps (initSys (initWriter bs mc u)) ops).ws.concurrentRequests ≤ mc) := by
  have hinit : ConcInv mc (initSys (initWriter bs mc u)) := by
    refine ⟨?_, ?_, rfl⟩
    · simp [initSys, initWriter]
    · simp only [initSys, initWriter]
      omega
  have hinv := concInv_runOps mc _ ops hinit
  obtain ⟨h1, h2, _⟩ := hinv
  constructor
  · omega
  · intro hcc
    omega

/-- Witness for C2's amended theorem at a concrete configuration and operation
sequence (the counterexample trace itself: the lower bound holds there, and
the upper bound holds conditionally on no thrown concurrency error). -/
theorem concurrency_count_bounds_witness :
    0 ≤ (runOps (initSys (initWriter 10 1 false))
          [.add 1 0, .flush 0, .add 2 0, .flush 0]).ws.concurrentRequests ∧
    ((runOps (initSys (initWriter 10 1 false))
          [.add 1 0, .flush 0, .add 2 0, .flush 0]).ccErrors = 0 →
      (runOps (initSys (initWriter 10 1 false))
          [.add 1 0, .flush 0, .add 2 0, .flush 0]).ws.concurrentRequests ≤ 1) :=
  concurrency_count_bounds 10 1 false [.add 1 0, .flush 0, .add 2 0, .flush 0]
    (by decide)

/-- `flushStart` never emits `idle` and never touches the `ready()` waiters. -/
theorem waiters_flushStart (s : Sys) (now : Int) (auto : Bool) :
    (flushStart s now auto).1.idleWaiters = s.idleWaiters ∧
    (flushStart s now auto).1.resolvedReady = s.resolvedReady ∧
    WEvent.idle ∉ (flushStart s now auto).2.1 := by
  unfold flushStart changeStateToBusy
  dsimp only
  repeat' split
  all_goals simp

/-- `add` never emits `idle` and never touches the `ready()` waiters. -/
theorem waiters_addOp (s : Sys) (r : Nat) (now : Int) :
    (addOp s r now).1.idleWaiters = s.idleWaiters ∧
    (addOp s r now).1.resolvedReady = s.resolvedReady ∧
    WEvent.idle ∉ (addOp s r now).2.1 := by
  unfold addOp
  dsimp only
  split
  · simp
  · split
    · exact waiters_flushStart _ now true
    · simp

/-- A sink-settlement step moves every registered waiter to the resolved list
exactly when it emits the `idle` edge, and touches no waiter otherwise. -/
theorem waiters_flushComplete (s : Sys) (idx : Nat) (ok : Bool) (now : Int) :
    (WEvent.idle ∈ (flushComplete s idx ok now).2.1 →
      (flushComplete s idx ok now).1.idleWaiters = [] ∧
      (flushComplete s idx ok now).1.resolvedReady = s.resolvedReady ++ s.idleWaiters) ∧
    (WEvent.idle ∉ (flushComplete s idx ok now).2.1 →
      (flushComplete s idx ok now).1.idleWaiters = s.idleWaiters ∧
      (flushComplete s idx ok now).1.resolvedReady = s.resolvedReady) := by
  unfold flushComplete changeStateToIdle
  match hq : s.pendings[idx]? with
  | none => simp
  | some p =>
    dsimp only
    repeat' split
    all_goals constructor
    all_goals intro hin
    all_goals simp_all

/-- C7 (confirmed): `ready()` semantics.  (1) Called when the writer is not
busy, the returned future is resolved immediately and nothing else changes.
(2) Called while busy, the caller is registered as an independent waiter (its
own entry, appended to the waiter list) and nothing is resolved yet.  (3) A
step that emits the `idle` transition resolves ALL currently registered
waiters at once — each keeps its own identity in the resolved list — and
empties the waiter list.  (4) A step that does not emit `idle` resolves no
registered waiter: the resolved list changes only by an immediate
not-busy `ready()`, and the waiter list only by a busy `ready()`
registration. -/
theorem ready_wait_semantics :
    (∀ (s : Sys) (id : Nat), s.ws.isBusy = false →
      readyCall s id = { s with resolvedReady := s.resolvedReady ++ [id] }) ∧
    (∀ (s : Sys) (id : Nat), s.ws.isBusy = true →
      readyCall s id = { s with idleWaiters := s.idleWaiters ++ [id] }) ∧
    (∀ (s : Sys) (op : Op), WEvent.idle ∈ (stepOp s op).2 →
      (stepOp s op).1.idleWaiters = [] ∧
      (stepOp s op).1.resolvedReady = s.resolvedReady ++ s.idleWaiters) ∧
    (∀ (s : Sys) (op : Op), WEvent.idle ∉ (stepOp s op).2 →
      ((stepOp s op).1.resolvedReady = s.resolvedReady ∨
       ∃ id, op = Op.ready id ∧ s.ws.isBusy = false ∧
         (stepOp s op).1.resolvedReady = s.resolvedReady ++ [id]) ∧
      ((stepOp s op).1.idleWaiters = s.idleWaiters ∨
       ∃ id, op = Op.ready id ∧ s.ws.isBusy = true ∧
         (stepOp s op).1.idleWaiters = s.idleWaiters ++ [id])) := by
  refine ⟨?_, ?_, ?_, ?_⟩
  · intro s id h
    unfold readyCall
    simp [h]
  · intro s id h
    unfold readyCall
    simp [h]
  · intro s op hin
    cases op with
    | add r now =>
      exact absurd hin (waiters_addOp s r now).2.2
    | flush now =>
      exact absurd hin (waiters_flushStart s now false).2.2
    | complete idx ok now =>
      exact (waiters_flushComplete s idx ok now).1 hin
    | ready id => simp [stepOp] at hin
  · intro s op hin
    cases op with
    | add r now =>
      exact ⟨Or.inl (waiters_addOp s r now).2.1, Or.inl (waiters_addOp s r now).1⟩
    | flush now =>
      exact ⟨Or.inl (waiters_flushStart s now false).2.1,
             Or.inl (waiters_flushStart s now false).1⟩
    | complete idx ok now =>
      have h := (waiters_flushComplete s idx ok now).2 hin
      exact ⟨Or.inl h.2, Or.inl h.1⟩
    | ready id =>
      by_cases hb : s.ws.isBusy
      · refine ⟨Or.inl ?_, Or.inr ⟨id, rfl, hb, ?_⟩⟩ <;> simp [stepOp, readyCall, hb]
      · refine ⟨Or.inr ⟨id, rfl, by simp [hb], ?_⟩, Or.inl ?_⟩ <;> simp [stepOp, readyCall, hb]

/-- Witness for C7: at the concrete saturated system `busySample`, a `ready()`
call registers waiter 7; with two waiters 7 and 8 registered, the successful
sink completion (which emits `idle`) resolves both at once. -/
theorem ready_wait_semantics_witness :
    readyCall busySample 7 =
      { busySample with idleWaiters := busySample.idleWaiters ++ [7] } ∧
    ((stepOp (readyCall (readyCall busySample 7) 8) (.complete 0 true 3)).1.idleWaiters = [] ∧
     (stepOp (readyCall (readyCall busySample 7) 8) (.complete 0 true 3)).1.resolvedReady =
       (readyCall (readyCall busySample 7) 8).resolvedReady ++
         (readyCall (readyCall busySample 7) 8).idleWaiters) :=
  ⟨ready_wait_semantics.2.1 busySample 7 (by decide),
   ready_wait_semantics.2.2.1 (readyCall (readyCall busySample 7) 8)
     (.complete 0 true 3) (by decide)⟩

/-- Fields of the writer untouched or cleared by `flushStart`: the buffer size
and the cumulative append counter are unchanged, the buffer is left empty, and
the sink log either is unchanged (no-op or thrown flush) or gains exactly the
snapshot of the buffer. -/
theorem flushStart_fields (s : Sys) (now : Int) (auto : Bool) :
    (flushStart s now auto).1.ws.bufferSize = s.ws.bufferSize ∧
    (flushStart s now auto).1.ws.bufferCount = s.ws.bufferCount ∧
    (flushStart s now auto).1.ws.entities = [] ∧
    ((flushStart s now auto).1.sinkCalls = s.sinkCalls ∨
     (flushStart s now auto).1.sinkCalls = s.sinkCalls ++ [(auto, s.ws.entities)]) := by
  unfold flushStart changeStateToBusy
  dsimp only
  repeat' split
  all_goals simp

/-- A sink settlement touches neither the buffer, the append counter, the
buffer size, nor the sink log. -/
theorem flushComplete_fields (s : Sys) (idx : Nat) (ok : Bool) (now : Int) :
    (flushComplete s idx ok now).1.ws.entities = s.ws.entities ∧
    (flushComplete s idx ok now).1.ws.bufferSize = s.ws.bufferSize ∧
    (flushComplete s idx ok now).1.ws.bufferCount = s.ws.bufferCount ∧
    (flushComplete s idx ok now).1.sinkCalls = s.sinkCalls := by
  unfold flushComplete changeStateToIdle
  match hq : s.pendings[idx]? with
  | none => exact ⟨rfl, rfl, rfl, rfl⟩
  | some p =>
    dsimp only
    repeat' split
    all_goals exact ⟨rfl, rfl, rfl, rfl⟩

/-- A number below the modulus whose successor is divisible by it: the
successor equals the modulus. -/
theorem full_of_mod (bs n : Nat) (_hbs : 0 < bs) (hle : n < bs)
    (hmod : (n + 1) % bs = 0) : n + 1 = bs := by
  rcases Nat.lt_or_ge (n + 1) bs with h | h
  · rw [Nat.mod_eq_of_lt h] at hmod
    omega
  · omega

/-- `add` preserves the batching invariant: when the append counter hits an
exact multiple of the buffer size the buffer holds exactly `bs` records, which
the automatic flush hands to the sink. -/
theorem batchInv_addOp (bs : Nat) (hbs : 0 < bs) (s : Sys) (r : Nat) (now : Int)
    (h : BatchInv bs s) : BatchInv bs (addOp s r now).1 := by
  obtain ⟨hsz, hmod, hlt, hcalls⟩ := h
  unfold addOp
  dsimp only
  split
  · exact ⟨hsz, hmod, hlt, hcalls⟩
  · split
    · next htrig =>
      rw [hsz] at htrig
      have hm1 : (s.ws.entities.length + 1) % bs = 0 := by
        rw [Nat.add_mod, hmod, ← Nat.add_mod]
        exact htrig
      have hfull : s.ws.entities.length + 1 = bs := full_of_mod bs _ hbs hlt hm1
      obtain ⟨f1, f2, f3, f4⟩ := flushStart_fields
        { s with ws := { s.ws with entities := s.ws.entities ++ [r],
                                   bufferCount := s.ws.bufferCount + 1 } } now true
      refine ⟨by rw [f1]; exact hsz, ?_, ?_, ?_⟩
      · rw [f2, f3]
        simpa using htrig.symm
      · rw [f3]; simpa using hbs
      · rcases f4 with hsame | happ
        · rw [hsame]; exact hcalls
        · rw [happ]
          intro c hc _
          rcases List.mem_append.mp hc with hold | hnew
          · exact hcalls c hold (by assumption)
          · have : c = (true, s.ws.entities ++ [r]) := by simpa using hnew
            subst this
            simpa using hfull
    · next htrig =>
      rw [hsz] at htrig
      refine ⟨hsz, ?_, ?_, hcalls⟩
      · show (s.ws.entities ++ [r]).length % bs = (s.ws.bufferCount + 1) % bs
        rw [List.length_append, List.length_singleton]
        rw [Nat.add_mod, hmod, ← Nat.add_mod]
      · show (s.ws.entities ++ [r]).length < bs
        rw [List.length_append]
        rcases Nat.lt_or_ge (s.ws.entities.length + 1) bs with hc | hc
        · simpa using hc
        · exfalso
          have hfull : s.ws.entities.length + 1 = bs := by omega
          apply htrig
          show (s.ws.bufferCount + 1) % bs = 0
          rw [Nat.add_mod, ← hmod, ← Nat.add_mod, hfull]
          exact Nat.mod_self bs

/-- Every operation other than an explicit flush preserves the batching
invariant. -/
theorem batchInv_stepOp (bs : Nat) (hbs : 0 < bs) (s : Sys) (op : Op)
    (hop : ∀ now, op ≠ Op.flush now) (h : BatchInv bs s) :
    BatchInv bs (stepOp s op).1 := by
  obtain ⟨hsz, hmod, hlt, hcalls⟩ := h
  cases op with
  | add r now => exact batchInv_addOp bs hbs s r now ⟨hsz, hmod, hlt, hcalls⟩
  | flush now => exact absurd rfl (hop now)
  | complete idx ok now =>
    obtain ⟨f1, f2, f3, f4⟩ := flushComplete_fields s idx ok now
    have hres : BatchInv bs (flushComplete s idx ok now).1 :=
      ⟨f2.trans hsz, by rw [f1, f3]; exact hmod, by rw [f1]; exact hlt,
       by rw [f4]; exact hcalls⟩
    exact hres
  | ready id =>
    unfold stepOp readyCall
    dsimp only
    split
    · exact ⟨hsz, hmod, hlt, hcalls⟩
    · exact ⟨hsz, hmod, hlt, hcalls⟩

/-- Flush-free operation sequences preserve the batching invariant. -/
theorem batchInv_runOps (bs : Nat) (hbs : 0 < bs) (s : Sys) (ops : List Op)
    (hops : noExplicitFlush ops) (h : BatchInv bs s) :
    BatchInv bs (runOps s ops) := by
  induction ops generalizing s with
  | nil => exact h
  | cons op rest ih =>
    have hop : ∀ now, op ≠ Op.flush now := by
      intro now heq
      exact hops now (heq ▸ List.mem_cons_self op rest)
    have hrest : noExplicitFlush rest := by
      intro now hmem
      exact hops now (List.mem_cons_of_mem op hmem)
    exact ih _ hrest (batchInv_stepOp bs hbs s op hop h)

/-- C3 (amended, proved): over every operation sequence containing no
mid-stream explicit `flush()` (adds, sink settlements and `ready()` calls
only), every batch handed to the sink by an automatic threshold-triggered
flush contains exactly `buffer_size` records, and the buffer afterwards always
holds fewer than `buffer_size` records — so a single trailing explicit
`flush()` submits a batch smaller than `buffer_size` (or nothing).  The
unamended claim fails for sequences with a mid-stream explicit flush, which
desynchronises the never-reset append counter from the buffer — see the
counterexample. -/
theorem auto_flush_batches_exact (bs : Nat) (mc : Int) (u : Bool) (ops : List Op)
    (hbs : 0 < bs) (hops : noExplicitFlush ops) :
    (∀ c ∈ (runOps (initSys (initWriter bs mc u)) ops).sinkCalls,
        c.1 = true → c.2.length = bs) ∧
    (runOps (initSys (initWriter bs mc u)) ops).ws.entities.length < bs := by
  have h0 : BatchInv bs (initSys (initWriter bs mc u)) := by
    refine ⟨rfl, rfl, ?_, ?_⟩
    · simpa [initSys, initWriter] using hbs
    · intro c hc
      simp [initSys, initWriter] at hc
  have h := batchInv_runOps bs hbs _ ops hops h0
  exact ⟨h.2.2.2, h.2.2.1⟩

/-- Witness for C3's amended theorem: buffer size 2, two adds (triggering one
automatic flush), a successful completion and one further add. -/
theorem auto_flush_batches_exact_witness :
    (∀ c ∈ (runOps (initSys (initWriter 2 5 false))
        [.add 1 0, .add 2 0, .complete 0 true 1, .add 3 0]).sinkCalls,
        c.1 = true → c.2.length = 2) ∧
    (runOps (initSys (initWriter 2 5 false))
        [.add 1 0, .add 2 0, .complete 0 true 1, .add 3 0]).ws.entities.length < 2 :=
  auto_flush_batches_exact 2 5 false [.add 1 0, .add 2 0, .complete 0 true 1, .add 3 0]
    (by decide) (by intro now hmem; simp at hmem)

/-- `settle` never touches the consumption counter, the closed flag or the
configured limit. -/
theorem settle_fields (L : Loader) (o : LoadOutcome) :
    (settle L o).count = L.count ∧ (settle L o).closed = L.closed ∧
    (settle L o).nLines = L.nLines := by
  unfold settle
  split
  all_goals exact ⟨rfl, rfl, rfl⟩

/-- Absorbing writer events never touches the consumption counter, the closed
flag or the configured limit. -/
theorem absorbEvents_fields (evs : List WEvent) (L : Loader) :
    (absorbEvents L evs).count = L.count ∧ (absorbEvents L evs).closed = L.closed ∧
    (absorbEvents L evs).nLines = L.nLines := by
  induction evs generalizing L with
  | nil => exact ⟨rfl, rfl, rfl⟩
  | cons e rest ih =>
    cases e with
    | stats p => exact ih _
    | error err =>
      obtain ⟨s1, s2, s3⟩ := settle_fields L (.rejected err)
      obtain ⟨i1, i2, i3⟩ := ih (settle L (.rejected err))
      exact ⟨i1.trans s1, i2.trans s2, i3.trans s3⟩
    | busy => exact ih _
    | idle => exact ih _

/-- Adding an entity from the loader never touches the consumption counter,
the closed flag or the configured limit. -/
theorem loaderAdd_fields (L : Loader) (entity : Nat) :
    (loaderAdd L entity).count = L.count ∧ (loaderAdd L entity).closed = L.closed ∧
    (loaderAdd L entity).nLines = L.nLines := by
  unfold loaderAdd
  dsimp only
  obtain ⟨a1, a2, a3⟩ := absorbEvents_fields (addOp L.sys entity 0).2.1
    { L with sys := (addOp L.sys entity 0).1 }
  split
  · next e heq =>
    obtain ⟨s1, s2, s3⟩ := settle_fields
      (absorbEvents { L with sys := (addOp L.sys entity 0).1 } (addOp L.sys entity 0).2.1)
      (.rejected e)
    exact ⟨s1.trans a1, s2.trans a2, s3.trans a3⟩
  · exact ⟨a1, a2, a3⟩

/-- Draining completions never touches the consumption counter, the closed
flag or the configured limit. -/
theorem loaderDrain_fields (L : Loader) :
    (loaderDrain L).count = L.count ∧ (loaderDrain L).closed = L.closed ∧
    (loaderDrain L).nLines = L.nLines := by
  unfold loaderDrain
  exact absorbEvents_fields _ _

/-- The writer-interaction body of a line event never touches the consumption
counter, the closed flag or the configured limit. -/
theorem lineBody_fields (L1 : Loader) (entity : Nat) :
    (loaderDrain (if L1.sys.ws.isBusy then loaderAdd (loaderDrain L1) entity
                  else loaderAdd L1 entity)).count = L1.count ∧
    (loaderDrain (if L1.sys.ws.isBusy then loaderAdd (loaderDrain L1) entity
                  else loaderAdd L1 entity)).closed = L1.closed ∧
    (loaderDrain (if L1.sys.ws.isBusy then loaderAdd (loaderDrain L1) entity
                  else loaderAdd L1 entity)).nLines = L1.nLines := by
  split
  · obtain ⟨d1, d2, d3⟩ := loaderDrain_fields L1
    obtain ⟨a1, a2, a3⟩ := loaderAdd_fields (loaderDrain L1) entity
    obtain ⟨e1, e2, e3⟩ := loaderDrain_fields (loaderAdd (loaderDrain L1) entity)
    exact ⟨e1.trans (a1.trans d1), e2.trans (a2.trans d2), e3.trans (a3.trans d3)⟩
  · obtain ⟨a1, a2, a3⟩ := loaderAdd_fields L1 entity
    obtain ⟨e1, e2, e3⟩ := loaderDrain_fields (loaderAdd L1 entity)
    exact ⟨e1.trans a1, e2.trans a2, e3.trans a3⟩

/-- One line event advances the consumed-line tracking: if after `k` source
events the consumption count is `min N k` and the reader is closed exactly
when `k` exceeds the limit `N`, the same holds after one more event. -/
theorem handleLine_count (conv : Nat → Nat) (N : Int) (L : Loader) (line : Nat) (k : Nat)
    (hN : 0 < N) (hn : L.nLines = some N) (hc : L.count = min N.toNat k)
    (hcl : L.closed = decide (N.toNat < k)) :
    (handleLine conv L line).nLines = some N ∧
    (handleLine conv L line).count = min N.toNat (k + 1) ∧
    (handleLine conv L line).closed = decide (N.toNat < (k + 1)) := by
  unfold handleLine
  dsimp only
  split
  · next hclosed =>
    have hlt : N.toNat < k := by
      rw [hclosed] at hcl
      exact (of_decide_eq_true hcl.symm)
    refine ⟨hn, by omega, ?_⟩
    · rw [hclosed]
      have hx : N.toNat < k + 1 := by omega
      simp [hx]
  · next hopen =>
    have hge : ¬ (N.toNat < k) := by
      intro hlt
      rw [hcl] at hopen
      exact hopen (by simp [hlt])
    split
    · next hlim =>
      rw [hn] at hlim
      simp only [decide_eq_true_eq, Bool.and_eq_true, beq_iff_eq] at hlim
      refine ⟨hn, by dsimp only; omega, ?_⟩
      dsimp only
      have hx : N.toNat < k + 1 := by omega
      simp [hx]
    · next hlim =>
      rw [hn] at hlim
      simp only [decide_eq_true_eq, Bool.and_eq_true, beq_iff_eq, not_and] at hlim
      have hne : (L.count : Int) ≠ N := hlim hN
      obtain ⟨b1, b2, b3⟩ := lineBody_fields { L with count := L.count + 1 } (conv line)
      refine ⟨?_, ?_, ?_⟩
      · rw [b3]
        exact hn
      · rw [b1]
        dsimp only
        omega
      · rw [b2]
        dsimp only
        rw [hcl]
        have hx : ¬ (N.toNat < k + 1) := by omega
        simp [hx, hge]

/-- Delivering any list of lines advances the consumed-line tracking by the
length of the list. -/
theorem runLines_count (conv : Nat → Nat) (N : Int) (lines : List Nat) (L : Loader) (k : Nat)
    (hN : 0 < N) (hn : L.nLines = some N) (hc : L.count = min N.toNat k)
    (hcl : L.closed = decide (N.toNat < k)) :
    (runLines conv L lines).count = min N.toNat (k + lines.length) ∧
    (runLines conv L lines).closed = decide (N.toNat < k + lines.length) := by
  induction lines generalizing L k with
  | nil => exact ⟨by simpa using hc, by simpa using hcl⟩
  | cons line rest ih =>
    obtain ⟨h1, h2, h3⟩ := handleLine_count conv N L line k hN hn hc hcl
    have hr := ih (handleLine conv L line) (k + 1) h1 h2 h3
    constructor
    · rw [show k + (line :: rest).length = (k + 1) + rest.length by simp; omega]
      exact hr.1
    · rw [show k + (line :: rest).length = (k + 1) + rest.length by simp; omega]
      exact hr.2

set_option maxRecDepth 100000 in
/-- C8 (confirmed): with a record limit `N > 0`, the pipeline consumes exactly
`min N (number of source lines)` records and closes the reader (telling the
source to end early) exactly when the source would deliver more than `N`
lines; and in the spec's concrete scenario — limit 250, buffer size 500, a
300-line source — the final explicit flush at the end event hands the sink a
single batch of exactly the 250 consumed records, and the load promise
resolves successfully. -/
theorem record_limit_consumption :
    (∀ (conv : Nat → Nat) (N : Int) (bs : Nat) (mc : Int) (u : Bool) (lines : List Nat),
        0 < N →
        (runLines conv (initLoader (some N) bs mc u) lines).count
          = min N.toNat lines.length ∧
        (runLines conv (initLoader (some N) bs mc u) lines).closed
          = decide (N.toNat < lines.length)) ∧
    ((runLoader id (some 250) 500 10 false ((List.range 300).map Nat.succ)).1.count
        = 250 ∧
     (runLoader id (some 250) 500 10 false ((List.range 300).map Nat.succ)).1.closed
        = true ∧
     (runLoader id (some 250) 500 10 false ((List.range 300).map Nat.succ)).1.sys.sinkCalls
        = [(false, (List.range 250).map Nat.succ)] ∧
     (runLoader id (some 250) 500 10 false ((List.range 300).map Nat.succ)).1.outcome
        = some LoadOutcome.resolvedOk) := by
  constructor
  · intro conv N bs mc u lines hN
    have hr := runLines_count conv N lines (initLoader (some N) bs mc u) 0 hN rfl
      (by simp [initLoader]) (by simp [initLoader])
    simpa using hr
  · exact ⟨by decide, by decide, by decide, by decide⟩

/-- Witness for C8's general part: limit 2 over a 3-line source consumes
exactly 2 records and closes the reader early. -/
theorem record_limit_consumption_witness :
    (runLines id (initLoader (some 2) 4 3 false) [5, 6, 7]).count
      = min (Int.toNat 2) 3 ∧
    (runLines id (initLoader (some 2) 4 3 false) [5, 6, 7]).closed
      = decide (Int.toNat 2 < 3) :=
  record_limit_consumption.1 id 2 4 3 false [5, 6, 7] (by decide)

/-- C10 (confirmed): loading a source that yields zero records still resolves
the load promise successfully.  For every configuration, the final flush is a
no-op (no sink call is ever made, `request_count` stays 0, no stats event
reaches the loader), `#complete` computes the mean per-request latency as
`Number(elapsed) * 1e-9 / request_count` with `request_count = 0` — an
unguarded division by zero whose JS result is `NaN`, not an exception — and
the promise resolves. -/
theorem zero_record_load (conv : Nat → Nat) (nL : Option Int) (bs : Nat)
    (mc : Int) (u : Bool) :
    (runLoader conv nL bs mc u []).1.outcome = some LoadOutcome.resolvedOk ∧
    (runLoader conv nL bs mc u []).1.sys.ws.requestCount = 0 ∧
    (runLoader conv nL bs mc u []).1.sys.sinkCalls = [] ∧
    (runLoader conv nL bs mc u []).1.reqCountL = 0 ∧
    (runLoader conv nL bs mc u []).2 = some (avgRequestSeconds 0 0) ∧
    avgRequestSeconds 0 0 = JsNum.nan := by
  refine ⟨?_, ?_, ?_, ?_, ?_, ?_⟩
  all_goals
    simp [runLoader, runLines, handleEnd, initLoader, initSys, initWriter,
      flushStart, loaderComplete, settle, absorbEvents, avgRequestSeconds, jsDivVal]
